import Mathlib

/-
Verification of the MAST distributed-RL coordination protocol
(rl_coach/graph_managers/mast_graph_manager.py).

The development shallowly embeds the three role loops of MASTGraphManager:
  * the trainer's fetch phase (fetch_from_worker),
  * the trainer's fetch/train/publish loop (trainer),
  * the actor's act loop (actor),
  * the evaluator's episode loop (evaluate).

External collaborators that live outside this repository (the base
GraphManager, the agent, the Redis data store) are modelled from the spec as
oracles: boolean streams for end_of_policies and attempt_load_policy, a step
stream for what act(EnvironmentSteps(1)) actually advances, and an incoming
episode list for the memory backend subscription.  Counter state that the
source mutates (total_steps_counter, current_step_counter[EnvironmentSteps],
last_publish_step, latest_policy_id, ...) is explicit record state.
-/

namespace MAST

/-- Run phases of the graph manager (rl_coach.core_types.RunPhase); only
TRAIN and TEST are used by the MAST role loops. -/
inductive RunPhase where
  | HEATUP
  | TRAIN
  | TEST
deriving DecidableEq

/-- An episode as fetched from an actor: carries the id of the policy that
produced it, the originating actor's task id, an episode id, and its length
(number of transitions). -/
structure Episode where
  policy_id : Nat
  task_id : Nat
  episode_id : Nat
  length : Nat
deriving DecidableEq

/-- Trainer-side state: the fields of MASTGraphManager (and its agent) that
the trainer/fetch_from_worker code reads and writes.  save_policy and sync
calls to the data store, and checkpoint writes, are recorded as event
counters/logs so that theorems can observe them. -/
structure TrainerState where
  latest_policy_id : Nat
  memory : List Episode
  total_steps_counter : Nat
  current_episode : Nat
  episode_buffer_complete : Bool
  current_step_counter : Nat
  last_publish_step : Nat
  training_steps : Nat
  sync_calls : Nat
  save_policy_calls : List Nat
  checkpoints : Nat
deriving DecidableEq

/-- The body of fetch_from_worker's accept branch: store the episode in the
agent's memory, advance total_steps_counter by the episode length, bump
current_episode, mark the episode buffer complete, and synchronize
current_step_counter[EnvironmentSteps] to total_steps_counter. -/
def acceptEpisode (s : TrainerState) (e : Episode) : TrainerState :=
  { s with
    memory := s.memory ++ [e],
    total_steps_counter := s.total_steps_counter + e.length,
    current_episode := s.current_episode + 1,
    episode_buffer_complete := true,
    current_step_counter := s.total_steps_counter + e.length }

/-- Total length of a list of episodes. -/
def sumLen : List Episode → Nat
  | [] => 0
  | e :: rest => e.length + sumLen rest

/-- The while-loop of fetch_from_worker: while steps < target, take the next
episode from the subscription; a stale episode (policy_id different from the
trainer's latest_policy_id) is discarded and the loop continues; an on-policy
episode is accepted and its length counts toward the target.  The incoming
list is the (finite prefix of the) episode stream; exhausting it before the
target is reached models next() blocking forever, returned as none. -/
def fetchLoop (latest target : Nat) : List Episode → Nat → TrainerState →
    Option (TrainerState × List Episode)
  | stream, steps, s =>
    if target ≤ steps then some (s, stream)
    else
      match stream with
      | [] => none
      | e :: rest =>
        if e.policy_id ≠ latest then
          fetchLoop latest target rest steps s
        else
          fetchLoop latest target rest (steps + e.length) (acceptEpisode s e)

/-- fetch_from_worker: if the trainer object has no memory_backend attribute
the call returns immediately with no effect; otherwise it runs the fetch
loop with the accumulated-steps counter starting at 0. -/
def fetch_from_worker (hasMemoryBackend : Bool) (target : Nat)
    (stream : List Episode) (s : TrainerState) :
    Option (TrainerState × List Episode) :=
  if hasMemoryBackend then fetchLoop s.latest_policy_id target stream 0 s
  else some (s, stream)

/-- Modelled from the spec: self.train() performs one training update via the
external model/optimizer collaborator (spec 4.2, Train phase) and advances
the training-step count; it touches none of the coordination counters. -/
def trainStep (s : TrainerState) : TrainerState :=
  { s with training_steps := s.training_steps + 1 }

/-- Modelled from the spec: occasionally_save_checkpoint writes a Checkpoint
on its own internal cadence (spec 3, Checkpoint); whether the cadence is due
at this call is external and passed in as ckptDue. -/
def occasionally_save_checkpoint (ckptDue : Bool) (s : TrainerState) : TrainerState :=
  if ckptDue then { s with checkpoints := s.checkpoints + 1 } else s

/-- The publish branch of the trainer loop, in source order: increment
latest_policy_id, sync the trainer's own policy reference, push the policy
via data_store.save_policy, attempt a checkpoint, and reset the
last_publish_step watermark to current_step_counter[EnvironmentSteps]. -/
def publishPolicy (ckptDue : Bool) (s : TrainerState) : TrainerState :=
  let s1 := { s with latest_policy_id := s.latest_policy_id + 1 }
  let s2 := { s1 with sync_calls := s1.sync_calls + 1 }
  let s3 := { s2 with save_policy_calls := s2.save_policy_calls ++ [s2.latest_policy_id] }
  let s4 := occasionally_save_checkpoint ckptDue s3
  { s4 with last_publish_step := s4.current_step_counter }

/-- One iteration of the trainer's while loop: fetch a target's worth of
experience, train once, then publish a new policy exactly when the number of
steps accumulated since the last publish has reached the threshold.  Returns
none when the fetch blocks forever (stream exhausted before the target). -/
def trainerIteration (threshold fetchTarget : Nat) (ckptDue : Bool)
    (stream : List Episode) (s : TrainerState) :
    Option (TrainerState × List Episode) :=
  match fetch_from_worker true fetchTarget stream s with
  | none => none
  | some (s1, rest) =>
    if threshold ≤ (trainStep s1).total_steps_counter -
        (trainStep s1).last_publish_step then
      some (publishPolicy ckptDue (trainStep s1), rest)
    else
      some (trainStep s1, rest)

/-- The trainer's while loop.  The loop condition (current_step_counter <
count_end, a TrainingSteps budget) is modelled from the spec (4.2: loops
while local step counter < budget): each iteration performs exactly one
training update, so a budget of fuel training steps runs fuel iterations.
The data store's end-of-run signal end_of_policies is available to the
trainer (it receives the data store) but the source trainer loop never
consults it; the parameter is kept to state that fact. -/
def trainerLoop (end_of_policies : Nat → Bool) (threshold fetchTarget : Nat)
    (ckptDue : Nat → Bool) : Nat → List Episode → TrainerState →
    Option (TrainerState × List Episode)
  | 0, stream, s => some (s, stream)
  | Nat.succ n, stream, s =>
    match trainerIteration threshold fetchTarget (ckptDue s.training_steps) stream s with
    | none => none
    | some (s2, rest) => trainerLoop end_of_policies threshold fetchTarget ckptDue n rest s2

/-- Actor-side state: the environment-step counter, the local latest-loaded
policy counter, the agent's policy_id tag for generated episodes, and event
counters for act calls and refresh attempts/successes.  iter indexes the
oracle streams. -/
structure ActorState where
  current_step_counter : Nat
  latest_policy_id : Nat
  agent_policy_id : Nat
  acts_done : Nat
  load_attempts : Nat
  loads_done : Nat
  iter : Nat
deriving DecidableEq

/-- The actor's policy-refresh attempt: data_store.attempt_load_policy is
called; on success the local latest_policy_id counter is incremented by one
and the agent's episode tag is set to it. -/
def actorRefresh (success : Bool) (s : ActorState) : ActorState :=
  if success then
    { s with
      latest_policy_id := s.latest_policy_id + 1,
      agent_policy_id := s.latest_policy_id + 1,
      loads_done := s.loads_done + 1,
      load_attempts := s.load_attempts + 1 }
  else
    { s with load_attempts := s.load_attempts + 1 }

/-- One iteration of the actor's while loop: exit (none) when the step budget
is exhausted or when the end-of-run signal is observed; otherwise attempt a
policy refresh when the raw environment-step counter is a multiple of 200,
then act.  Modelled from the spec: act(EnvironmentSteps(1)) advances the
environment-step counter by stepDelta (at least one; the exact amount is
decided by the agent). -/
def actorIteration (end_of_policies attempt_load_policy : Nat → Bool)
    (stepDelta : Nat → Nat) (count_end : Nat) (s : ActorState) :
    Option ActorState :=
  if s.current_step_counter < count_end then
    if end_of_policies s.iter then none
    else
      let s1 := if s.current_step_counter % 200 = 0 then
                  actorRefresh (attempt_load_policy s.iter) s
                else s
      some { s1 with
             current_step_counter := s1.current_step_counter + stepDelta s.iter,
             acts_done := s1.acts_done + 1,
             iter := s.iter + 1 }
  else none

/-- The actor's while loop, iterated at most fuel times; it stops early at
the step budget or at the end-of-run signal (the none cases of the
iteration). -/
def actorLoop (end_of_policies attempt_load_policy : Nat → Bool)
    (stepDelta : Nat → Nat) (count_end : Nat) : Nat → ActorState → ActorState
  | 0, s => s
  | Nat.succ n, s =>
    match actorIteration end_of_policies attempt_load_policy stepDelta count_end s with
    | none => s
    | some s2 => actorLoop end_of_policies attempt_load_policy stepDelta count_end n s2

/-- Evaluator-side state.  act_phases logs the run phase in effect at each
act(EnvironmentEpisodes(1)) call, so that theorems can observe which phase an
evaluation episode was attributed to. -/
structure EvalState where
  current_step_counter : Nat
  latest_policy_id : Nat
  agent_policy_id : Nat
  phase : RunPhase
  episodes_done : Nat
  loads_done : Nat
  sync_calls : Nat
  act_phases : List RunPhase
  iter : Nat
deriving DecidableEq

/-- The evaluator's policy-refresh attempt (same counter discipline as the
actor's, but attempted on every iteration). -/
def evalRefresh (success : Bool) (s : EvalState) : EvalState :=
  if success then
    { s with
      latest_policy_id := s.latest_policy_id + 1,
      agent_policy_id := s.latest_policy_id + 1,
      loads_done := s.loads_done + 1 }
  else s

/-- One iteration of the evaluator's while loop, in source order: budget
check, end-of-run check, refresh attempt, then (in evaluate-only mode) set
phase to TEST, act one episode, sync, and (in evaluate-only mode) set phase
to TRAIN.  Modelled from the spec: one evaluation episode advances the
environment-step counter by stepDelta (at least one). -/
def evaluatorIteration (end_of_policies attempt_load_policy : Nat → Bool)
    (stepDelta : Nat → Nat) (evaluate_only : Bool) (count_end : Nat)
    (s : EvalState) : Option EvalState :=
  if s.current_step_counter < count_end then
    if end_of_policies s.iter then none
    else
      let s1 := evalRefresh (attempt_load_policy s.iter) s
      let s2 := if evaluate_only then { s1 with phase := RunPhase.TEST } else s1
      let s3 := { s2 with
                  episodes_done := s2.episodes_done + 1,
                  act_phases := s2.act_phases ++ [s2.phase],
                  current_step_counter := s2.current_step_counter + stepDelta s.iter }
      let s4 := { s3 with sync_calls := s3.sync_calls + 1 }
      let s5 := if evaluate_only then { s4 with phase := RunPhase.TRAIN } else s4
      some { s5 with iter := s.iter + 1 }
  else none

/-- The evaluator's while loop, iterated at most fuel times. -/
def evaluatorLoop (end_of_policies attempt_load_policy : Nat → Bool)
    (stepDelta : Nat → Nat) (evaluate_only : Bool) (count_end : Nat) :
    Nat → EvalState → EvalState
  | 0, s => s
  | Nat.succ n, s =>
    match evaluatorIteration end_of_policies attempt_load_policy stepDelta
        evaluate_only count_end s with
    | none => s
    | some s2 => evaluatorLoop end_of_policies attempt_load_policy stepDelta
        evaluate_only count_end n s2

/-- The trainer state at entry to the trainer loop: all counters zero
(latest_policy_id starts at 0 in MASTGraphManager.__init__), empty memory,
no publishes yet. -/
def initTrainerState : TrainerState :=
  { latest_policy_id := 0, memory := [], total_steps_counter := 0,
    current_episode := 0, episode_buffer_complete := false,
    current_step_counter := 0, last_publish_step := 0, training_steps := 0,
    sync_calls := 0, save_policy_calls := [], checkpoints := 0 }

/-- The actor state at entry to the actor loop: counters zero
(latest_policy_id starts at 0 in MASTGraphManager.__init__; the agent's tag
starts at the same baseline policy, spec 4.2). -/
def initActorState : ActorState :=
  { current_step_counter := 0, latest_policy_id := 0, agent_policy_id := 0,
    acts_done := 0, load_attempts := 0, loads_done := 0, iter := 0 }

/-- The evaluator state at entry to its loop.  The phase is TEST: the loop
body runs inside with phase_context(RunPhase.TEST) (modelled from the spec:
the context manager sets the phase on entry). -/
def initEvalState : EvalState :=
  { current_step_counter := 0, latest_policy_id := 0, agent_policy_id := 0,
    phase := RunPhase.TEST, episodes_done := 0, loads_done := 0,
    sync_calls := 0, act_phases := [], iter := 0 }

/-- Number of training updates performed in a trainer run (0 when the run
blocked in the fetch loop). -/
def resTraining (r : Option (TrainerState × List Episode)) : Nat :=
  match r with
  | some (s, _) => s.training_steps
  | none => 0

/-- Number of save_policy calls in a trainer run result. -/
def resPublishes (r : Option (TrainerState × List Episode)) : Nat :=
  match r with
  | some (s, _) => s.save_policy_calls.length
  | none => 0

/-- Number of checkpoint writes in a trainer run result. -/
def resCheckpoints (r : Option (TrainerState × List Episode)) : Nat :=
  match r with
  | some (s, _) => s.checkpoints
  | none => 0

/-- Number of episodes stored in the trainer memory in a run result. -/
def resMemoryLen (r : Option (TrainerState × List Episode)) : Nat :=
  match r with
  | some (s, _) => s.memory.length
  | none => 0

/-- The run phase after an evaluator iteration (HEATUP when the iteration
exited). -/
def evalResultPhase (r : Option EvalState) : RunPhase :=
  match r with
  | some s => s.phase
  | none => RunPhase.HEATUP

/-! ### Unfolding lemmas for the fetch loop -/

theorem fetchLoop_exit (latest target : Nat) (stream : List Episode) (steps : Nat)
    (s : TrainerState) (h : target ≤ steps) :
    fetchLoop latest target stream steps s = some (s, stream) := by
  rw [fetchLoop.eq_def]
  simp [h]

theorem fetchLoop_nil (latest target : Nat) (steps : Nat) (s : TrainerState)
    (h : steps < target) : fetchLoop latest target [] steps s = none := by
  rw [fetchLoop.eq_def]
  simp [Nat.not_le.mpr h]

theorem fetchLoop_stale (latest target : Nat) (e : Episode) (rest : List Episode)
    (steps : Nat) (s : TrainerState) (h : steps < target) (he : e.policy_id ≠ latest) :
    fetchLoop latest target (e :: rest) steps s = fetchLoop latest target rest steps s := by
  rw [fetchLoop.eq_def]
  simp [Nat.not_le.mpr h, he]

theorem fetchLoop_accept (latest target : Nat) (e : Episode) (rest : List Episode)
    (steps : Nat) (s : TrainerState) (h : steps < target) (he : e.policy_id = latest) :
    fetchLoop latest target (e :: rest) steps s =
      fetchLoop latest target rest (steps + e.length) (acceptEpisode s e) := by
  rw [fetchLoop.eq_def]
  simp [Nat.not_le.mpr h, he]

/-! ### Frame and bookkeeping lemmas for the fetch loop -/

/-- The fetch loop never touches the publish-side state (latest_policy_id,
last_publish_step, sync/save/checkpoint logs, training steps) and only grows
the total-steps counter. -/
theorem fetchLoop_preserves (latest target : Nat) :
    ∀ (stream : List Episode) (steps : Nat) (s s1 : TrainerState) (rest : List Episode),
      fetchLoop latest target stream steps s = some (s1, rest) →
      s1.latest_policy_id = s.latest_policy_id ∧
      s1.last_publish_step = s.last_publish_step ∧
      s1.sync_calls = s.sync_calls ∧
      s1.save_policy_calls = s.save_policy_calls ∧
      s1.checkpoints = s.checkpoints ∧
      s1.training_steps = s.training_steps ∧
      s.total_steps_counter ≤ s1.total_steps_counter := by
  intro stream
  induction stream with
  | nil =>
    intro steps s s1 rest h
    by_cases hts : target ≤ steps
    · rw [fetchLoop_exit _ _ _ _ _ hts] at h
      obtain ⟨rfl, rfl⟩ : s = s1 ∧ [] = rest := by
        simpa [eq_comm] using h
      simp
    · rw [fetchLoop_nil _ _ _ _ (Nat.lt_of_not_le hts)] at h
      exact absurd h (by simp)
  | cons e tl ih =>
    intro steps s s1 rest h
    by_cases hts : target ≤ steps
    · rw [fetchLoop_exit _ _ _ _ _ hts] at h
      obtain ⟨rfl, rfl⟩ : s = s1 ∧ e :: tl = rest := by
        simpa [eq_comm] using h
      simp
    · have hlt : steps < target := Nat.lt_of_not_le hts
      by_cases he : e.policy_id = latest
      · rw [fetchLoop_accept _ _ _ _ _ _ hlt he] at h
        have := ih (steps + e.length) (acceptEpisode s e) s1 rest h
        simpa [acceptEpisode] using
          ⟨this.1, this.2.1, this.2.2.1, this.2.2.2.1, this.2.2.2.2.1,
           this.2.2.2.2.2.1, le_trans (Nat.le_add_right _ _) this.2.2.2.2.2.2⟩
      · rw [fetchLoop_stale _ _ _ _ _ _ hlt he] at h
        exact ih steps s s1 rest h

/-- After a fetch that accepted at least one episode,
current_step_counter[EnvironmentSteps] equals total_steps_counter (the
accept branch assigns it).  Stated as an invariant: if the equality already
holds whenever the loop can exit immediately, it holds at exit. -/
theorem fetchLoop_current (latest target : Nat) :
    ∀ (stream : List Episode) (steps : Nat) (s s1 : TrainerState) (rest : List Episode),
      fetchLoop latest target stream steps s = some (s1, rest) →
      (target ≤ steps → s.current_step_counter = s.total_steps_counter) →
      s1.current_step_counter = s1.total_steps_counter := by
  intro stream
  induction stream with
  | nil =>
    intro steps s s1 rest h hinv
    by_cases hts : target ≤ steps
    · rw [fetchLoop_exit _ _ _ _ _ hts] at h
      obtain ⟨rfl, rfl⟩ : s = s1 ∧ ([] : List Episode) = rest := by
        simpa [eq_comm] using h
      exact hinv hts
    · rw [fetchLoop_nil _ _ _ _ (Nat.lt_of_not_le hts)] at h
      exact absurd h (by simp)
  | cons e tl ih =>
    intro steps s s1 rest h hinv
    by_cases hts : target ≤ steps
    · rw [fetchLoop_exit _ _ _ _ _ hts] at h
      obtain ⟨rfl, rfl⟩ : s = s1 ∧ e :: tl = rest := by
        simpa [eq_comm] using h
      exact hinv hts
    · have hlt : steps < target := Nat.lt_of_not_le hts
      by_cases he : e.policy_id = latest
      · rw [fetchLoop_accept _ _ _ _ _ _ hlt he] at h
        exact ih _ _ _ _ h (fun _ => by simp [acceptEpisode])
      · rw [fetchLoop_stale _ _ _ _ _ _ hlt he] at h
        exact ih _ _ _ _ h hinv

/-- Folding the accept branch over a list of episodes advances
total_steps_counter by exactly the cumulative episode length. -/
theorem foldl_accept_total (pre : List Episode) :
    ∀ s : TrainerState,
      (List.foldl acceptEpisode s pre).total_steps_counter =
        s.total_steps_counter + sumLen pre := by
  induction pre with
  | nil => intro s; simp [sumLen]
  | cons e tl ih =>
    intro s
    simp only [List.foldl_cons, sumLen, ih, acceptEpisode]
    omega

/-- On an all-on-policy stream carrying enough total length, the fetch loop
returns: it consumes exactly the minimal prefix whose cumulative length
(added to the steps already accumulated) reaches the target, accepts every
episode of that prefix, and leaves the rest of the stream unconsumed. -/
theorem fetchLoop_on_policy (latest target : Nat) :
    ∀ (stream : List Episode) (steps : Nat) (s : TrainerState),
      (∀ e ∈ stream, e.policy_id = latest) →
      target ≤ steps + sumLen stream →
      ∃ pre post,
        stream = pre ++ post ∧
        fetchLoop latest target stream steps s =
          some (List.foldl acceptEpisode s pre, post) ∧
        target ≤ steps + sumLen pre ∧
        ∀ pre2, pre2 <+: pre → pre2 ≠ pre → steps + sumLen pre2 < target := by
  intro stream
  induction stream with
  | nil =>
    intro steps s _ henough
    refine ⟨[], [], by simp, ?_, ?_, ?_⟩
    · rw [fetchLoop_exit]
      · simp
      · simpa [sumLen] using henough
    · simpa [sumLen] using henough
    · intro pre2 hpre hne
      exact absurd (List.prefix_nil.mp hpre) hne
  | cons e tl ih =>
    intro steps s hon henough
    by_cases hts : target ≤ steps
    · refine ⟨[], e :: tl, by simp, ?_, by simpa [sumLen] using hts, ?_⟩
      · rw [fetchLoop_exit _ _ _ _ _ hts]; simp
      · intro pre2 hpre hne
        exact absurd (List.prefix_nil.mp hpre) hne
    · have hlt : steps < target := Nat.lt_of_not_le hts
      have he : e.policy_id = latest := hon e (by simp)
      have hon2 : ∀ x ∈ tl, x.policy_id = latest := fun x hx => hon x (by simp [hx])
      have henough2 : target ≤ (steps + e.length) + sumLen tl := by
        simp only [sumLen] at henough; omega
      obtain ⟨pre, post, hsplit, hrun, hreach, hmin⟩ :=
        ih (steps + e.length) (acceptEpisode s e) hon2 henough2
      refine ⟨e :: pre, post, by simp [hsplit], ?_, ?_, ?_⟩
      · rw [fetchLoop_accept _ _ _ _ _ _ hlt he, hrun]
        simp
      · simp only [sumLen]; omega
      · intro pre2 hpre hne
        cases pre2 with
        | nil => simpa [sumLen] using hlt
        | cons x pre2tl =>
          obtain ⟨hx, hpre2⟩ := by
            simpa using (List.cons_prefix_cons.mp hpre)
          subst hx
          have hne2 : pre2tl ≠ pre := fun hh => hne (by simp [hh])
          have := hmin pre2tl hpre2 hne2
          simp only [sumLen]; omega

/-- A trainer state whose current policy id is 3, for concrete witnesses. -/
def sampleTrainer3 : TrainerState := { initTrainerState with latest_policy_id := 3 }

/-! ### Claim theorems -/

/-- C1: during the fetch phase, an episode taken from the stream is accepted
(appended to the trainer's experience memory, its length counted toward the
fetch target, the total-steps counter advanced by its length) if and only if
its policy_id equals the trainer's latest_policy_id; on a mismatch the
episode is discarded and the loop continues with the accumulated count and
state unchanged.  In particular an episode with policy_id = k is accepted
when latest_policy_id = k and rejected when latest_policy_id > k. -/
theorem staleness_check (latest target steps : Nat) (e : Episode)
    (rest : List Episode) (s : TrainerState) (h : steps < target) :
    (e.policy_id = latest →
      fetchLoop latest target (e :: rest) steps s =
        fetchLoop latest target rest (steps + e.length) (acceptEpisode s e) ∧
      (acceptEpisode s e).memory = s.memory ++ [e] ∧
      (acceptEpisode s e).total_steps_counter = s.total_steps_counter + e.length) ∧
    (e.policy_id ≠ latest →
      fetchLoop latest target (e :: rest) steps s =
        fetchLoop latest target rest steps s) ∧
    (e.policy_id < latest →
      fetchLoop latest target (e :: rest) steps s =
        fetchLoop latest target rest steps s) := by
  refine ⟨fun he => ⟨fetchLoop_accept _ _ _ _ _ _ h he, ?_, ?_⟩,
    fun he => fetchLoop_stale _ _ _ _ _ _ h he,
    fun he => fetchLoop_stale _ _ _ _ _ _ h (Nat.ne_of_lt he)⟩
  · simp [acceptEpisode]
  · simp [acceptEpisode]

/-- Witness for C1: with latest_policy_id = 3 and target 200, an on-policy
episode of length 80 is accepted (state moves to acceptEpisode, count moves
to 80), and an episode tagged with the older policy 2 is skipped with count
and state unchanged. -/
theorem staleness_check_witness :
    fetchLoop 3 200 [⟨3, 0, 0, 80⟩] 0 sampleTrainer3 =
      fetchLoop 3 200 [] (0 + 80) (acceptEpisode sampleTrainer3 ⟨3, 0, 0, 80⟩) ∧
    fetchLoop 3 200 [⟨2, 0, 1, 150⟩] 0 sampleTrainer3 =
      fetchLoop 3 200 [] 0 sampleTrainer3 :=
  ⟨((staleness_check 3 200 0 ⟨3, 0, 0, 80⟩ [] sampleTrainer3 (by decide)).1 rfl).1,
   (staleness_check 3 200 0 ⟨2, 0, 1, 150⟩ [] sampleTrainer3 (by decide)).2.1 (by decide)⟩

/-- C2: on a stream of on-policy episodes of positive length carrying enough
total length, the fetch phase terminates exactly when the cumulative length
of accepted episodes first reaches or exceeds the target (every proper
prefix of what it consumed is below the target), and the trainer's
total-steps counter increases by exactly the accepted cumulative length,
which may exceed the target. -/
theorem fetch_target_convergence (target : Nat) (stream : List Episode)
    (s : TrainerState)
    (hon : ∀ e ∈ stream, e.policy_id = s.latest_policy_id)
    (_hpos : ∀ e ∈ stream, 0 < e.length)
    (henough : target ≤ sumLen stream) :
    ∃ pre post,
      stream = pre ++ post ∧
      fetch_from_worker true target stream s =
        some (List.foldl acceptEpisode s pre, post) ∧
      target ≤ sumLen pre ∧
      (∀ pre2, pre2 <+: pre → pre2 ≠ pre → sumLen pre2 < target) ∧
      (List.foldl acceptEpisode s pre).total_steps_counter =
        s.total_steps_counter + sumLen pre := by
  obtain ⟨pre, post, hsplit, hrun, hreach, hmin⟩ :=
    fetchLoop_on_policy s.latest_policy_id target stream 0 s hon
      (by simpa using henough)
  refine ⟨pre, post, hsplit, ?_, by simpa using hreach, ?_, foldl_accept_total pre s⟩
  · simpa [fetch_from_worker] using hrun
  · intro p2 hp hne
    simpa using hmin p2 hp hne

/-- Witness for C2: two on-policy episodes of lengths 2 and 3 against target
4: the fetch phase consumes both (5 ≥ 4, while the proper prefix reaches
only 2 < 4) and the total-steps counter rises by 5, not 4. -/
theorem fetch_target_convergence_witness :
    ∃ pre post,
      ([⟨0, 0, 0, 2⟩, ⟨0, 0, 1, 3⟩] : List Episode) = pre ++ post ∧
      fetch_from_worker true 4 [⟨0, 0, 0, 2⟩, ⟨0, 0, 1, 3⟩] initTrainerState =
        some (List.foldl acceptEpisode initTrainerState pre, post) ∧
      4 ≤ sumLen pre ∧
      (∀ pre2, pre2 <+: pre → pre2 ≠ pre → sumLen pre2 < 4) ∧
      (List.foldl acceptEpisode initTrainerState pre).total_steps_counter =
        initTrainerState.total_steps_counter + sumLen pre :=
  fetch_target_convergence 4 [⟨0, 0, 0, 2⟩, ⟨0, 0, 1, 3⟩] initTrainerState
    (by decide) (by decide) (by decide)

/-- C10: when the trainer object has no memory_backend attribute,
fetch_from_worker returns immediately: no error, no episode consumed from
the stream, and the trainer state completely unchanged. -/
theorem fetch_without_backend (target : Nat) (stream : List Episode)
    (s : TrainerState) :
    fetch_from_worker false target stream s = some (s, stream) := by
  simp [fetch_from_worker]

/-! ### Publish-branch bookkeeping -/

@[simp] theorem trainStep_latest (s : TrainerState) :
    (trainStep s).latest_policy_id = s.latest_policy_id := rfl

@[simp] theorem trainStep_total (s : TrainerState) :
    (trainStep s).total_steps_counter = s.total_steps_counter := rfl

@[simp] theorem trainStep_current (s : TrainerState) :
    (trainStep s).current_step_counter = s.current_step_counter := rfl

@[simp] theorem trainStep_last_publish (s : TrainerState) :
    (trainStep s).last_publish_step = s.last_publish_step := rfl

@[simp] theorem trainStep_sync (s : TrainerState) :
    (trainStep s).sync_calls = s.sync_calls := rfl

@[simp] theorem trainStep_save (s : TrainerState) :
    (trainStep s).save_policy_calls = s.save_policy_calls := rfl

@[simp] theorem trainStep_checkpoints (s : TrainerState) :
    (trainStep s).checkpoints = s.checkpoints := rfl

@[simp] theorem trainStep_training (s : TrainerState) :
    (trainStep s).training_steps = s.training_steps + 1 := rfl

@[simp] theorem publishPolicy_latest (ck : Bool) (s : TrainerState) :
    (publishPolicy ck s).latest_policy_id = s.latest_policy_id + 1 := by
  cases ck <;> rfl

@[simp] theorem publishPolicy_sync (ck : Bool) (s : TrainerState) :
    (publishPolicy ck s).sync_calls = s.sync_calls + 1 := by
  cases ck <;> rfl

@[simp] theorem publishPolicy_save (ck : Bool) (s : TrainerState) :
    (publishPolicy ck s).save_policy_calls =
      s.save_policy_calls ++ [s.latest_policy_id + 1] := by
  cases ck <;> rfl

@[simp] theorem publishPolicy_last_publish (ck : Bool) (s : TrainerState) :
    (publishPolicy ck s).last_publish_step = s.current_step_counter := by
  cases ck <;> rfl

@[simp] theorem publishPolicy_total (ck : Bool) (s : TrainerState) :
    (publishPolicy ck s).total_steps_counter = s.total_steps_counter := by
  cases ck <;> rfl

@[simp] theorem publishPolicy_checkpoints (ck : Bool) (s : TrainerState) :
    (publishPolicy ck s).checkpoints = s.checkpoints + (if ck then 1 else 0) := by
  cases ck <;> rfl

@[simp] theorem publishPolicy_training (ck : Bool) (s : TrainerState) :
    (publishPolicy ck s).training_steps = s.training_steps := by
  cases ck <;> rfl

/-- trainerIteration propagates a blocked fetch. -/
theorem trainerIteration_blocked (threshold fetchTarget : Nat) (ckptDue : Bool)
    (stream : List Episode) (s : TrainerState)
    (h : fetch_from_worker true fetchTarget stream s = none) :
    trainerIteration threshold fetchTarget ckptDue stream s = none := by
  unfold trainerIteration
  rw [h]

/-- trainerIteration on a successful fetch reduces to the train step and the
publish guard. -/
theorem trainerIteration_fetched (threshold fetchTarget : Nat) (ckptDue : Bool)
    (stream rest : List Episode) (s s1 : TrainerState)
    (h : fetch_from_worker true fetchTarget stream s = some (s1, rest)) :
    trainerIteration threshold fetchTarget ckptDue stream s =
      if threshold ≤ (trainStep s1).total_steps_counter -
          (trainStep s1).last_publish_step then
        some (publishPolicy ckptDue (trainStep s1), rest)
      else
        some (trainStep s1, rest) := by
  unfold trainerIteration
  rw [h]

/-- Case analysis of one trainer iteration: the fetch result is threaded
through the (coordination-state-preserving) train step, and the publish
branch fires exactly on the threshold guard. -/
theorem trainerIteration_cases (threshold fetchTarget : Nat) (ckptDue : Bool)
    (stream rest : List Episode) (s s2 : TrainerState)
    (hit : trainerIteration threshold fetchTarget ckptDue stream s = some (s2, rest)) :
    ∃ s1, fetchLoop s.latest_policy_id fetchTarget stream 0 s = some (s1, rest) ∧
      ((threshold ≤ s1.total_steps_counter - s1.last_publish_step ∧
          s2 = publishPolicy ckptDue (trainStep s1)) ∨
        (¬ threshold ≤ s1.total_steps_counter - s1.last_publish_step ∧
          s2 = trainStep s1)) := by
  cases hfw : fetch_from_worker true fetchTarget stream s with
  | none =>
    rw [trainerIteration_blocked _ _ _ _ _ hfw] at hit
    exact absurd hit (by simp)
  | some p =>
    obtain ⟨s1, rest0⟩ := p
    rw [trainerIteration_fetched _ _ _ _ _ _ _ hfw] at hit
    have hfl : fetchLoop s.latest_policy_id fetchTarget stream 0 s = some (s1, rest0) := by
      simpa [fetch_from_worker] using hfw
    by_cases hg : threshold ≤ (trainStep s1).total_steps_counter -
        (trainStep s1).last_publish_step
    · rw [if_pos hg] at hit
      obtain ⟨h1, h2⟩ : publishPolicy ckptDue (trainStep s1) = s2 ∧ rest0 = rest := by
        simpa using hit
      refine ⟨s1, by rw [h2] at hfl; exact hfl, Or.inl ⟨?_, h1.symm⟩⟩
      simpa using hg
    · rw [if_neg hg] at hit
      obtain ⟨h1, h2⟩ : trainStep s1 = s2 ∧ rest0 = rest := by
        simpa using hit
      refine ⟨s1, by rw [h2] at hfl; exact hfl, Or.inr ⟨?_, h1.symm⟩⟩
      simpa using hg

/-- C3: in a trainer iteration (with a positive fetch target), a new policy
is published at the end of the train phase if and only if the number of
steps accumulated since the last publish is at least the threshold; on
publish, latest_policy_id is incremented by exactly 1, the trainer's own
policy reference is synchronized, the policy is pushed via save_policy, and
the last-publish watermark is reset to the current total so that the count
since the publish restarts from 0; otherwise none of these happen. -/
theorem publish_cadence (threshold fetchTarget : Nat) (ckptDue : Bool)
    (stream rest : List Episode) (s s2 : TrainerState)
    (hT : 0 < fetchTarget)
    (hit : trainerIteration threshold fetchTarget ckptDue stream s = some (s2, rest)) :
    (threshold ≤ s2.total_steps_counter - s.last_publish_step →
      s2.latest_policy_id = s.latest_policy_id + 1 ∧
      s2.sync_calls = s.sync_calls + 1 ∧
      s2.save_policy_calls = s.save_policy_calls ++ [s.latest_policy_id + 1] ∧
      s2.last_publish_step = s2.total_steps_counter ∧
      s2.total_steps_counter - s2.last_publish_step = 0) ∧
    (¬ threshold ≤ s2.total_steps_counter - s.last_publish_step →
      s2.latest_policy_id = s.latest_policy_id ∧
      s2.sync_calls = s.sync_calls ∧
      s2.save_policy_calls = s.save_policy_calls ∧
      s2.last_publish_step = s.last_publish_step) := by
  obtain ⟨s1, hfw, hcase⟩ :=
    trainerIteration_cases threshold fetchTarget ckptDue stream rest s s2 hit
  obtain ⟨hlat, hlp, hsync, hsave, -, -, -⟩ :=
    fetchLoop_preserves s.latest_policy_id fetchTarget stream 0 s s1 rest hfw
  have hcur : s1.current_step_counter = s1.total_steps_counter :=
    fetchLoop_current s.latest_policy_id fetchTarget stream 0 s s1 rest hfw
      (fun hc => absurd (Nat.le_trans hT hc) (by simp))
  rcases hcase with ⟨hg, rfl⟩ | ⟨hg, rfl⟩
  · constructor
    · intro _
      exact ⟨by simp [hlat], by simp [hsync], by simp [hsave, hlat],
        by simp [hcur], by simp [hcur]⟩
    · intro hng
      exact absurd (by simpa [hlp] using hg) hng
  · constructor
    · intro hgg
      exact absurd (by simpa [hlp] using hgg) hg
    · intro _
      exact ⟨by simp [hlat], by simp [hsync], by simp [hsave], by simp [hlp]⟩

/-- The trainer state after one publishing iteration from the initial state
(threshold 5, fetch target 5, one on-policy episode of length 5,
checkpoint cadence due). -/
def pubS2 : TrainerState :=
  { latest_policy_id := 1, memory := [⟨0, 0, 0, 5⟩], total_steps_counter := 5,
    current_episode := 1, episode_buffer_complete := true,
    current_step_counter := 5, last_publish_step := 5, training_steps := 1,
    sync_calls := 1, save_policy_calls := [1], checkpoints := 1 }

/-- Witness for C3: a concrete publishing iteration (threshold 5 reached by
a 5-step fetch) increments the policy id, syncs, pushes exactly one policy,
and resets the steps-since-publish count to 0. -/
theorem publish_cadence_witness :
    pubS2.latest_policy_id = initTrainerState.latest_policy_id + 1 ∧
    pubS2.sync_calls = initTrainerState.sync_calls + 1 ∧
    pubS2.save_policy_calls =
      initTrainerState.save_policy_calls ++ [initTrainerState.latest_policy_id + 1] ∧
    pubS2.last_publish_step = pubS2.total_steps_counter ∧
    pubS2.total_steps_counter - pubS2.last_publish_step = 0 :=
  (publish_cadence 5 5 true [⟨0, 0, 0, 5⟩] [] initTrainerState pubS2
    (by decide) (by decide)).1 (by decide)

/-- C5: with a positive publish threshold the trainer never publishes a
policy built from zero new on-policy steps: when the fetch blocks (the
stream is persistently empty of usable episodes) the iteration blocks inside
the fetch loop and no publish falls through; and whenever an iteration does
publish, at least threshold-many (hence more than zero) steps had been
accumulated since the previous publish watermark. -/
theorem no_publish_from_zero_steps (threshold fetchTarget : Nat) (ckptDue : Bool)
    (stream : List Episode) (s : TrainerState) (hth : 0 < threshold) :
    (fetch_from_worker true fetchTarget stream s = none →
      trainerIteration threshold fetchTarget ckptDue stream s = none) ∧
    (∀ s2 rest,
      trainerIteration threshold fetchTarget ckptDue stream s = some (s2, rest) →
      s2.save_policy_calls.length = s.save_policy_calls.length + 1 →
      threshold ≤ s2.total_steps_counter - s.last_publish_step ∧
      0 < s2.total_steps_counter - s.last_publish_step) := by
  constructor
  · intro hf
    unfold trainerIteration
    rw [hf]
  · intro s2 rest hit hpub
    obtain ⟨s1, hfw, hcase⟩ :=
      trainerIteration_cases threshold fetchTarget ckptDue stream rest s s2 hit
    obtain ⟨-, hlp, -, hsave, -, -, -⟩ :=
      fetchLoop_preserves s.latest_policy_id fetchTarget stream 0 s s1 rest hfw
    rcases hcase with ⟨hg, rfl⟩ | ⟨-, rfl⟩
    · have htot : threshold ≤
          (publishPolicy ckptDue (trainStep s1)).total_steps_counter -
            s.last_publish_step := by
        simpa [hlp] using hg
      exact ⟨htot, Nat.lt_of_lt_of_le hth htot⟩
    · exact absurd hpub (by simp [hsave])

/-- Witness for C5: with an empty stream the iteration blocks instead of
publishing, and the concrete publishing iteration behind pubS2 had 5 ≥ 5 > 0
steps accumulated since the previous publish. -/
theorem no_publish_from_zero_steps_witness :
    trainerIteration 5 5 true [] initTrainerState = none ∧
    (5 ≤ pubS2.total_steps_counter - initTrainerState.last_publish_step ∧
      0 < pubS2.total_steps_counter - initTrainerState.last_publish_step) :=
  ⟨(no_publish_from_zero_steps 5 5 true [] initTrainerState (by decide)).1 (by decide),
   (no_publish_from_zero_steps 5 5 true [⟨0, 0, 0, 5⟩] initTrainerState (by decide)).2
     pubS2 [] (by decide) (by decide)⟩

/-- Counterexample for C7: checkpoint writes do depend on whether a publish
occurs.  Two iterations over the same stream, both with the checkpoint
cadence due: the iteration whose publish threshold (100) is not reached
writes no checkpoint, while the identical iteration with threshold 1
publishes and writes one — occasionally_save_checkpoint is only ever invoked
inside the publish branch. -/
theorem checkpoint_independence_cex :
    resPublishes (trainerIteration 100 1 true [⟨0, 0, 0, 5⟩] initTrainerState) = 0 ∧
    resCheckpoints (trainerIteration 100 1 true [⟨0, 0, 0, 5⟩] initTrainerState) = 0 ∧
    resPublishes (trainerIteration 1 1 true [⟨0, 0, 0, 5⟩] initTrainerState) = 1 ∧
    resCheckpoints (trainerIteration 1 1 true [⟨0, 0, 0, 5⟩] initTrainerState) = 1 := by
  decide

/-- C7 amended: checkpoints are written by the trainer only inside the
publish branch: an iteration that does not publish writes no checkpoint, and
an iteration that publishes writes one exactly when the checkpoint
collaborator's own internal cadence is due. -/
theorem checkpoint_within_publish (threshold fetchTarget : Nat) (ckptDue : Bool)
    (stream rest : List Episode) (s s2 : TrainerState)
    (hit : trainerIteration threshold fetchTarget ckptDue stream s = some (s2, rest)) :
    (s2.save_policy_calls.length = s.save_policy_calls.length →
      s2.checkpoints = s.checkpoints) ∧
    (s2.save_policy_calls.length = s.save_policy_calls.length + 1 →
      s2.checkpoints = s.checkpoints + (if ckptDue then 1 else 0)) := by
  obtain ⟨s1, hfw, hcase⟩ :=
    trainerIteration_cases threshold fetchTarget ckptDue stream rest s s2 hit
  obtain ⟨hlat, -, -, hsave, hck, -, -⟩ :=
    fetchLoop_preserves s.latest_policy_id fetchTarget stream 0 s s1 rest hfw
  rcases hcase with ⟨-, rfl⟩ | ⟨-, rfl⟩
  · constructor
    · intro hno
      exact absurd hno (by simp [hsave])
    · intro _
      simp [hck]
  · constructor
    · intro _
      simp [hck]
    · intro hpub
      exact absurd hpub (by simp [hsave])

/-- Witness for C7 amended: the concrete publishing iteration behind pubS2
writes exactly one checkpoint (its cadence was due). -/
theorem checkpoint_within_publish_witness :
    pubS2.checkpoints = initTrainerState.checkpoints + (if true then 1 else 0) :=
  (checkpoint_within_publish 5 5 true [⟨0, 0, 0, 5⟩] [] initTrainerState pubS2
    (by decide)).2 (by decide)

/-! ### Termination propagation -/

/-- The trainer loop's result does not depend on the end-of-run signal at
all: the source trainer loop never calls data_store.end_of_policies. -/
theorem trainerLoop_signal_independent (eop eop2 : Nat → Bool)
    (threshold fetchTarget : Nat) (ckptDue : Nat → Bool) :
    ∀ (fuel : Nat) (stream : List Episode) (s : TrainerState),
      trainerLoop eop threshold fetchTarget ckptDue fuel stream s =
        trainerLoop eop2 threshold fetchTarget ckptDue fuel stream s := by
  intro fuel
  induction fuel with
  | zero => intro stream s; rfl
  | succ n ih =>
    intro stream s
    simp only [trainerLoop]
    cases trainerIteration threshold fetchTarget (ckptDue s.training_steps) stream s with
    | none => rfl
    | some p => exact ih p.2 p.1

/-- Counterexample for C4: the trainer loop does not exit when the
end-of-run signal is set.  With end_of_policies constantly true from before
the loop starts, a budget of two training steps still performs two full
iterations: two training updates run and both episodes are fetched and
stored, contradicting that the trainer exits at the next iteration-boundary
check with no new training step. -/
theorem trainer_ignores_end_signal_cex :
    resTraining (trainerLoop (fun _ => true) 1000 1 (fun _ => false) 2
      [⟨0, 0, 0, 5⟩, ⟨0, 0, 1, 5⟩] initTrainerState) = 2 ∧
    resMemoryLen (trainerLoop (fun _ => true) 1000 1 (fun _ => false) 2
      [⟨0, 0, 0, 5⟩, ⟨0, 0, 1, 5⟩] initTrainerState) = 2 := by
  decide

/-- C4 amended: once the end-of-run signal reads true, the actor loop and
the evaluator loop exit at their next iteration-boundary check without
starting a new step or episode; the trainer loop, however, never polls the
signal — its behavior is identical under any signal. -/
theorem termination_propagation (eop eop2 load : Nat → Bool)
    (delta : Nat → Nat) (countA countE : Nat) (a : ActorState) (ev : EvalState)
    (evalOnly : Bool) (threshold fetchTarget : Nat) (ckptDue : Nat → Bool)
    (fuel : Nat) (stream : List Episode) (t : TrainerState)
    (ha : eop a.iter = true) (hev : eop ev.iter = true) :
    actorIteration eop load delta countA a = none ∧
    evaluatorIteration eop load delta evalOnly countE ev = none ∧
    trainerLoop eop threshold fetchTarget ckptDue fuel stream t =
      trainerLoop eop2 threshold fetchTarget ckptDue fuel stream t := by
  refine ⟨?_, ?_, trainerLoop_signal_independent eop eop2 threshold fetchTarget
    ckptDue fuel stream t⟩
  · by_cases h : a.current_step_counter < countA <;> simp [actorIteration, h, ha]
  · by_cases h : ev.current_step_counter < countE <;>
      simp [evaluatorIteration, h, hev]

/-- Witness for C4 amended: with the signal constantly true, the initial
actor and evaluator iterations exit immediately, and a concrete trainer run
is unchanged when the signal is flipped. -/
theorem termination_propagation_witness :
    actorIteration (fun _ => true) (fun _ => true) (fun _ => 1) 10
      initActorState = none ∧
    evaluatorIteration (fun _ => true) (fun _ => true) (fun _ => 1) true 10
      initEvalState = none ∧
    trainerLoop (fun _ => true) 5 5 (fun _ => false) 1 [⟨0, 0, 0, 5⟩]
        initTrainerState =
      trainerLoop (fun _ => false) 5 5 (fun _ => false) 1 [⟨0, 0, 0, 5⟩]
        initTrainerState :=
  termination_propagation (fun _ => true) (fun _ => false) (fun _ => true)
    (fun _ => 1) 10 10 initActorState initEvalState true 5 5 (fun _ => false)
    1 [⟨0, 0, 0, 5⟩] initTrainerState rfl rfl

/-! ### Actor refresh cadence -/

/-- The step stream of the C6 counterexample: the act at iteration 199
advances the environment counter by two steps (the agent may consume more
than one step per decision), every other act by one. -/
def cexStepDelta : Nat → Nat := fun t => if t = 199 then 2 else 1

/-- Counterexample for C6: an interval of well over 200 environment steps
can pass with no policy-refresh attempt.  Running the actor from the initial
state with cexStepDelta: after one iteration the counter is 1 with exactly
one refresh attempt made (at counter 0); continuing the same run to 398
iterations the counter reaches 399 — 398 further environment steps,
containing a full 200-step interval — while the attempt count is still 1,
because the counter jumped from 199 to 201 and skipped the only multiple of
200 in the window. -/
theorem actor_refresh_interval_cex :
    (actorLoop (fun _ => false) (fun _ => true) cexStepDelta 1000 1
      initActorState).load_attempts = 1 ∧
    (actorLoop (fun _ => false) (fun _ => true) cexStepDelta 1000 1
      initActorState).current_step_counter = 1 ∧
    (actorLoop (fun _ => false) (fun _ => true) cexStepDelta 1000 398
      initActorState).load_attempts = 1 ∧
    (actorLoop (fun _ => false) (fun _ => true) cexStepDelta 1000 398
      initActorState).current_step_counter = 399 := by
  decide

/-- C6 amended: the actor attempts a non-blocking policy refresh exactly at
loop iterations where the raw environment-step counter is a multiple of 200
(so a 200-step interval is only guaranteed an attempt when every act
advances exactly one step); on each successful refresh it increments its
local latest-loaded-policy counter by exactly 1 and tags subsequently
generated episodes with the new policy id. -/
theorem actor_refresh_cadence (eop load : Nat → Bool) (delta : Nat → Nat)
    (countA : Nat) (s s1 : ActorState)
    (hrun : actorIteration eop load delta countA s = some s1) :
    s1.load_attempts = s.load_attempts +
      (if s.current_step_counter % 200 = 0 then 1 else 0) ∧
    (s.current_step_counter % 200 = 0 → load s.iter = true →
      s1.latest_policy_id = s.latest_policy_id + 1 ∧
      s1.agent_policy_id = s.latest_policy_id + 1 ∧
      s1.loads_done = s.loads_done + 1) ∧
    (¬ s.current_step_counter % 200 = 0 →
      s1.latest_policy_id = s.latest_policy_id ∧
      s1.agent_policy_id = s.agent_policy_id ∧
      s1.loads_done = s.loads_done) := by
  by_cases hb : s.current_step_counter < countA
  · rw [actorIteration, if_pos hb] at hrun
    cases he : eop s.iter with
    | true => rw [if_pos he] at hrun; exact absurd hrun (by simp)
    | false =>
      rw [if_neg (by simp [he])] at hrun
      by_cases hm : s.current_step_counter % 200 = 0
      · rw [if_pos hm] at hrun
        cases hl : load s.iter with
        | true =>
          obtain rfl : _ = s1 := by simpa using hrun
          refine ⟨by simp [hm, actorRefresh, hl], fun _ _ => ?_, fun hnm => absurd hm hnm⟩
          simp [actorRefresh, hl]
        | false =>
          obtain rfl : _ = s1 := by simpa using hrun
          refine ⟨by simp [hm, actorRefresh, hl], fun _ hl2 => ?_,
            fun hnm => absurd hm hnm⟩
          exact absurd hl2 (by simp [hl])
      · rw [if_neg hm] at hrun
        obtain rfl : _ = s1 := by simpa using hrun
        exact ⟨by simp [hm], fun hm2 _ => absurd hm2 hm, fun _ => by simp⟩
  · rw [actorIteration, if_neg hb] at hrun
    exact absurd hrun (by simp)

/-- The actor state after one iteration from the initial state with a
successful refresh at counter 0. -/
def actorW1 : ActorState :=
  { current_step_counter := 1, latest_policy_id := 1, agent_policy_id := 1,
    acts_done := 1, load_attempts := 1, loads_done := 1, iter := 1 }

/-- Witness for C6 amended: at counter 0 (a multiple of 200) one refresh
attempt is made; it succeeds, so the local policy counter becomes 1 and the
agent's episode tag becomes 1. -/
theorem actor_refresh_cadence_witness :
    actorW1.load_attempts = initActorState.load_attempts +
      (if initActorState.current_step_counter % 200 = 0 then 1 else 0) ∧
    actorW1.latest_policy_id = initActorState.latest_policy_id + 1 ∧
    actorW1.agent_policy_id = initActorState.latest_policy_id + 1 ∧
    actorW1.loads_done = initActorState.loads_done + 1 :=
  ⟨(actor_refresh_cadence (fun _ => false) (fun _ => true) (fun _ => 1) 10
      initActorState actorW1 (by decide)).1,
   (actor_refresh_cadence (fun _ => false) (fun _ => true) (fun _ => 1) 10
      initActorState actorW1 (by decide)).2.1 (by decide) rfl⟩

/-! ### Evaluator phase toggling -/

/-- Counterexample for C8: in evaluate-only mode the evaluator does not
restore the run phase that was in effect immediately before the episode.
At loop entry the surrounding phase context has set the phase to TEST; after
one full iteration the phase field reads TRAIN, not the prior TEST — the
code assigns the fixed value RunPhase.TRAIN rather than restoring. -/
theorem evaluator_phase_restore_cex :
    evalResultPhase (evaluatorIteration (fun _ => false) (fun _ => false)
      (fun _ => 1) true 10 initEvalState) = RunPhase.TRAIN ∧
    initEvalState.phase = RunPhase.TEST ∧
    RunPhase.TRAIN ≠ RunPhase.TEST := by
  decide

/-- C8 amended: in evaluate-only mode each evaluation episode is acted in
the TEST phase, and afterwards the evaluator sets the phase field
unconditionally to TRAIN; the pre-episode phase is therefore restored
exactly when it was TRAIN (true from the second loop iteration on, but not
for the first iteration inside the TEST phase context). -/
theorem evaluator_phase_toggle (eop load : Nat → Bool) (delta : Nat → Nat)
    (countE : Nat) (s s1 : EvalState)
    (hrun : evaluatorIteration eop load delta true countE s = some s1) :
    s1.act_phases = s.act_phases ++ [RunPhase.TEST] ∧
    s1.phase = RunPhase.TRAIN ∧
    (s.phase = RunPhase.TRAIN → s1.phase = s.phase) := by
  by_cases hb : s.current_step_counter < countE
  · rw [evaluatorIteration, if_pos hb] at hrun
    cases he : eop s.iter with
    | true => rw [if_pos he] at hrun; exact absurd hrun (by simp)
    | false =>
      rw [if_neg (by simp [he])] at hrun
      obtain rfl : _ = s1 := by simpa using hrun
      cases hl : load s.iter <;>
        exact ⟨by simp [evalRefresh, hl], by simp [evalRefresh, hl],
          fun hp => by simp [evalRefresh, hl, hp]⟩
  · rw [evaluatorIteration, if_neg hb] at hrun
    exact absurd hrun (by simp)

/-- The evaluator state after one evaluate-only iteration from the initial
state with no policy available and the signal off. -/
def evalW1 : EvalState :=
  { current_step_counter := 1, latest_policy_id := 0, agent_policy_id := 0,
    phase := RunPhase.TRAIN, episodes_done := 1, loads_done := 0,
    sync_calls := 1, act_phases := [RunPhase.TEST], iter := 1 }

/-- Witness for C8 amended: the first evaluate-only iteration acts its
episode in TEST and leaves the phase field at TRAIN. -/
theorem evaluator_phase_toggle_witness :
    evalW1.act_phases = initEvalState.act_phases ++ [RunPhase.TEST] ∧
    evalW1.phase = RunPhase.TRAIN :=
  ⟨(evaluator_phase_toggle (fun _ => false) (fun _ => false) (fun _ => 1) 10
      initEvalState evalW1 (by decide)).1,
   (evaluator_phase_toggle (fun _ => false) (fun _ => false) (fun _ => 1) 10
      initEvalState evalW1 (by decide)).2.1⟩

/-! ### Purely local policy counters -/

/-- One actor iteration preserves the invariant that the local policy
counter equals the number of successful loads and that the agent's episode
tag equals the counter. -/
theorem actorIteration_counter (eop load : Nat → Bool) (delta : Nat → Nat)
    (countA : Nat) (s s1 : ActorState)
    (h : actorIteration eop load delta countA s = some s1)
    (h1 : s.latest_policy_id = s.loads_done)
    (h2 : s.agent_policy_id = s.latest_policy_id) :
    s1.latest_policy_id = s1.loads_done ∧
    s1.agent_policy_id = s1.latest_policy_id := by
  by_cases hb : s.current_step_counter < countA
  · rw [actorIteration, if_pos hb] at h
    cases he : eop s.iter with
    | true => rw [if_pos he] at h; exact absurd h (by simp)
    | false =>
      rw [if_neg (by simp [he])] at h
      by_cases hm : s.current_step_counter % 200 = 0
      · rw [if_pos hm] at h
        obtain rfl : _ = s1 := by simpa using h
        cases hl : load s.iter <;> simp [actorRefresh, hl, h1, h2]
      · rw [if_neg hm] at h
        obtain rfl : _ = s1 := by simpa using h
        simp [h1, h2]
  · rw [actorIteration, if_neg hb] at h
    exact absurd h (by simp)

/-- The actor-loop version of the counter invariant. -/
theorem actorLoop_counter (eop load : Nat → Bool) (delta : Nat → Nat)
    (countA : Nat) :
    ∀ (fuel : Nat) (s : ActorState),
      s.latest_policy_id = s.loads_done →
      s.agent_policy_id = s.latest_policy_id →
      (actorLoop eop load delta countA fuel s).latest_policy_id =
        (actorLoop eop load delta countA fuel s).loads_done ∧
      (actorLoop eop load delta countA fuel s).agent_policy_id =
        (actorLoop eop load delta countA fuel s).latest_policy_id := by
  intro fuel
  induction fuel with
  | zero => intro s h1 h2; exact ⟨h1, h2⟩
  | succ n ih =>
    intro s h1 h2
    simp only [actorLoop]
    cases hit : actorIteration eop load delta countA s with
    | none => exact ⟨h1, h2⟩
    | some s2 =>
      obtain ⟨g1, g2⟩ := actorIteration_counter eop load delta countA s s2 hit h1 h2
      exact ih s2 g1 g2

/-- One evaluator iteration preserves the same counter invariant. -/
theorem evaluatorIteration_counter (eop load : Nat → Bool) (delta : Nat → Nat)
    (evalOnly : Bool) (countE : Nat) (s s1 : EvalState)
    (h : evaluatorIteration eop load delta evalOnly countE s = some s1)
    (h1 : s.latest_policy_id = s.loads_done)
    (h2 : s.agent_policy_id = s.latest_policy_id) :
    s1.latest_policy_id = s1.loads_done ∧
    s1.agent_policy_id = s1.latest_policy_id := by
  by_cases hb : s.current_step_counter < countE
  · rw [evaluatorIteration, if_pos hb] at h
    cases he : eop s.iter with
    | true => rw [if_pos he] at h; exact absurd h (by simp)
    | false =>
      rw [if_neg (by simp [he])] at h
      obtain rfl : _ = s1 := by simpa using h
      cases hl : load s.iter <;> cases evalOnly <;>
        simp [evalRefresh, hl, h1, h2]
  · rw [evaluatorIteration, if_neg hb] at h
    exact absurd h (by simp)

/-- The evaluator-loop version of the counter invariant. -/
theorem evaluatorLoop_counter (eop load : Nat → Bool) (delta : Nat → Nat)
    (evalOnly : Bool) (countE : Nat) :
    ∀ (fuel : Nat) (s : EvalState),
      s.latest_policy_id = s.loads_done →
      s.agent_policy_id = s.latest_policy_id →
      (evaluatorLoop eop load delta evalOnly countE fuel s).latest_policy_id =
        (evaluatorLoop eop load delta evalOnly countE fuel s).loads_done ∧
      (evaluatorLoop eop load delta evalOnly countE fuel s).agent_policy_id =
        (evaluatorLoop eop load delta evalOnly countE fuel s).latest_policy_id := by
  intro fuel
  induction fuel with
  | zero => intro s h1 h2; exact ⟨h1, h2⟩
  | succ n ih =>
    intro s h1 h2
    simp only [evaluatorLoop]
    cases hit : evaluatorIteration eop load delta evalOnly countE s with
    | none => exact ⟨h1, h2⟩
    | some s2 =>
      obtain ⟨g1, g2⟩ :=
        evaluatorIteration_counter eop load delta evalOnly countE s s2 hit h1 h2
      exact ih s2 g1 g2

/-- One trainer iteration preserves the invariant that the trainer's policy
counter equals the number of save_policy calls so far. -/
theorem trainerIteration_policy_count (threshold fetchTarget : Nat)
    (ckptDue : Bool) (stream rest : List Episode) (s s2 : TrainerState)
    (hit : trainerIteration threshold fetchTarget ckptDue stream s = some (s2, rest))
    (h1 : s.latest_policy_id = s.save_policy_calls.length) :
    s2.latest_policy_id = s2.save_policy_calls.length := by
  obtain ⟨s1, hfw, hcase⟩ :=
    trainerIteration_cases threshold fetchTarget ckptDue stream rest s s2 hit
  obtain ⟨hlat, -, -, hsave, -, -, -⟩ :=
    fetchLoop_preserves s.latest_policy_id fetchTarget stream 0 s s1 rest hfw
  rcases hcase with ⟨-, rfl⟩ | ⟨-, rfl⟩
  · simp [hlat, hsave, h1]
  · simp [hlat, hsave, h1]

/-- The trainer-loop version of the publish-counter invariant. -/
theorem trainerLoop_policy_count (eop : Nat → Bool) (threshold fetchTarget : Nat)
    (ckptDue : Nat → Bool) :
    ∀ (fuel : Nat) (stream rest : List Episode) (s t : TrainerState),
      trainerLoop eop threshold fetchTarget ckptDue fuel stream s = some (t, rest) →
      s.latest_policy_id = s.save_policy_calls.length →
      t.latest_policy_id = t.save_policy_calls.length := by
  intro fuel
  induction fuel with
  | zero =>
    intro stream rest s t h h1
    obtain ⟨rfl, rfl⟩ : s = t ∧ stream = rest := by
      simpa [trainerLoop, eq_comm] using h
    exact h1
  | succ n ih =>
    intro stream rest s t h h1
    simp only [trainerLoop] at h
    cases hit : trainerIteration threshold fetchTarget
        (ckptDue s.training_steps) stream s with
    | none => rw [hit] at h; exact absurd h (by simp)
    | some p =>
      obtain ⟨s2, rest2⟩ := p
      rw [hit] at h
      exact ih rest2 rest s2 t h
        (trainerIteration_policy_count threshold fetchTarget
          (ckptDue s.training_steps) stream rest2 s s2 hit h1)

/-- C9: latest_policy_id is a purely local counter in every role.  Starting
from the initial states, the actor's and the evaluator's counters always
equal their numbers of successful attempt_load_policy calls (and the agent's
episode tag equals the counter), the trainer's counter always equals its
number of save_policy calls, and consequently an actor's episode tag equals
the trainer's latest_policy_id exactly when the actor has completed as many
successful loads as the trainer has completed publishes — no identifier
carried by a loaded policy is ever consulted. -/
theorem local_policy_counters
    (eopA loadA : Nat → Bool) (deltaA : Nat → Nat) (countA fuelA : Nat)
    (eopE loadE : Nat → Bool) (deltaE : Nat → Nat) (evalOnly : Bool)
    (countE fuelE : Nat) (eopT : Nat → Bool) (threshold fetchTarget : Nat)
    (ckptDue : Nat → Bool) (fuelT : Nat) (stream rest : List Episode)
    (t : TrainerState)
    (ht : trainerLoop eopT threshold fetchTarget ckptDue fuelT stream
      initTrainerState = some (t, rest)) :
    (actorLoop eopA loadA deltaA countA fuelA initActorState).latest_policy_id =
      (actorLoop eopA loadA deltaA countA fuelA initActorState).loads_done ∧
    (actorLoop eopA loadA deltaA countA fuelA initActorState).agent_policy_id =
      (actorLoop eopA loadA deltaA countA fuelA initActorState).latest_policy_id ∧
    (evaluatorLoop eopE loadE deltaE evalOnly countE fuelE
        initEvalState).latest_policy_id =
      (evaluatorLoop eopE loadE deltaE evalOnly countE fuelE
        initEvalState).loads_done ∧
    (evaluatorLoop eopE loadE deltaE evalOnly countE fuelE
        initEvalState).agent_policy_id =
      (evaluatorLoop eopE loadE deltaE evalOnly countE fuelE
        initEvalState).latest_policy_id ∧
    t.latest_policy_id = t.save_policy_calls.length ∧
    ((actorLoop eopA loadA deltaA countA fuelA initActorState).agent_policy_id =
        t.latest_policy_id ↔
      (actorLoop eopA loadA deltaA countA fuelA initActorState).loads_done =
        t.save_policy_calls.length) := by
  obtain ⟨a1, a2⟩ :=
    actorLoop_counter eopA loadA deltaA countA fuelA initActorState rfl rfl
  obtain ⟨e1, e2⟩ :=
    evaluatorLoop_counter eopE loadE deltaE evalOnly countE fuelE
      initEvalState rfl rfl
  have t1 := trainerLoop_policy_count eopT threshold fetchTarget ckptDue fuelT
    stream rest initTrainerState t ht rfl
  refine ⟨a1, a2, e1, e2, t1, ?_⟩
  rw [a2, a1, t1]

/-- Witness for C9: a one-iteration actor run (one successful load) and a
one-iteration trainer run (one publish, behind pubS2) have equal tag and
policy id, matching their equal event counts. -/
theorem local_policy_counters_witness :
    (actorLoop (fun _ => false) (fun _ => true) (fun _ => 1) 10 1
      initActorState).latest_policy_id =
      (actorLoop (fun _ => false) (fun _ => true) (fun _ => 1) 10 1
        initActorState).loads_done ∧
    (actorLoop (fun _ => false) (fun _ => true) (fun _ => 1) 10 1
      initActorState).agent_policy_id =
      (actorLoop (fun _ => false) (fun _ => true) (fun _ => 1) 10 1
        initActorState).latest_policy_id ∧
    (evaluatorLoop (fun _ => false) (fun _ => true) (fun _ => 1) true 10 1
      initEvalState).latest_policy_id =
      (evaluatorLoop (fun _ => false) (fun _ => true) (fun _ => 1) true 10 1
        initEvalState).loads_done ∧
    (evaluatorLoop (fun _ => false) (fun _ => true) (fun _ => 1) true 10 1
      initEvalState).agent_policy_id =
      (evaluatorLoop (fun _ => false) (fun _ => true) (fun _ => 1) true 10 1
        initEvalState).latest_policy_id ∧
    pubS2.latest_policy_id = pubS2.save_policy_calls.length ∧
    ((actorLoop (fun _ => false) (fun _ => true) (fun _ => 1) 10 1
        initActorState).agent_policy_id = pubS2.latest_policy_id ↔
      (actorLoop (fun _ => false) (fun _ => true) (fun _ => 1) 10 1
        initActorState).loads_done = pubS2.save_policy_calls.length) :=
  local_policy_counters (fun _ => false) (fun _ => true) (fun _ => 1) 10 1
    (fun _ => false) (fun _ => true) (fun _ => 1) true 10 1
    (fun _ => false) 5 5 (fun _ => true) 1 [⟨0, 0, 0, 5⟩] [] pubS2 (by decide)

end MAST
